import Mathlib

/-!
Shallow embedding of the `axiospam` Go package (PAM binding):
result codes (`pamuser.go`), the lock-guarded credential relay
(`tokenLock` / `tokenToCheck` / `tokenToSet`), the conversation callback
`passphraseInput`, the private operations `isUserLoginToken`,
`changeToken`, `getUserAccountFlags`, and the public facades
`Authenticate` and `ChangePassword`.  The native PAM stack is modelled as
an environment of outcomes; each operation additionally returns a trace of
events paired with the relay state after the event, so that lock/slot/
session discipline can be stated and proved.
-/

namespace Axiospam

/-- PamResult is the Go type `type PamResult int`; modelled as `Int`. -/
abbrev PamResult := Int

def PamSuccess : PamResult := 0
def PamOpenERR : PamResult := 1
def PamSymbolERR : PamResult := 2
def PamServiceERR : PamResult := 3
def PamSystemERR : PamResult := 4
def PamBufERR : PamResult := 5
def PamPermDenied : PamResult := 6
def PamAuthERR : PamResult := 7
def PamCredInsufficient : PamResult := 8
def PamAuthInfoUnavail : PamResult := 9
def PamUserUnknown : PamResult := 10
def PamMaxTries : PamResult := 11
def PamNewAuthTokReqd : PamResult := 12
def PamAcctExpired : PamResult := 13
def PamSessiionERR : PamResult := 14
def PamCredUnavail : PamResult := 15
def PamCredExpired : PamResult := 16
def PamCredERR : PamResult := 17
def PamNoModuleData : PamResult := 18
def PamConvERR : PamResult := 19
def PamAuthTokERR : PamResult := 20
def PamAuthTokRecoveryERR : PamResult := 21
def PamAuthTokLockBusy : PamResult := 22
def PamAuthTokDisableAging : PamResult := 23
def PamTryAgain : PamResult := 24
def PamIgnore : PamResult := 25
def PamAbort : PamResult := 26
def PamAuthTokExpired : PamResult := 27
def PamModuleUnknown : PamResult := 28
def PamBadItem : PamResult := 29
def PamConvAgain : PamResult := 30
def PamIncomplete : PamResult := 31

/-- The `messages` array of `pamuser.go` (32 labels, indices 0..31). -/
def messages : List String :=
  [ "SUCCESS", "OPEN_ERR", "SYMBOL_ERR", "SERVICE_ERR", "SYSTEM_ERR",
    "BUF_ERR", "PERM_DENIED", "AUTH_ERR", "CRED_INSUFFICIENT",
    "AUTHINFO_UNAVAIL", "USER_UNKNOWN", "MAXTRIES", "NEW_AUTHTOK_REQD",
    "ACCT_EXPIRED", "SESSION_ERR", "CRED_UNAVAIL", "CRED_EXPIRED",
    "CRED_ERR", "NO_MODULE_DATA", "CONV_ERR", "AUTHTOK_ERR",
    "AUTHTOK_RECOVERY_ERR", "AUTHTOK_LOCK_BUSY", "AUTHTOK_DISABLE_AGING",
    "TRY_AGAIN", "IGNORE", "ABORT", "AUTHTOK_EXPIRED", "MODULE_UNKNOWN",
    "BAD_ITEM", "CONV_AGAIN", "INCOMPLETE" ]

/-- `func (s PamResult) String() string`.  The Go body is
`if int(s) < 0 || int(s) > len(messages) { return "unknown AuthenResult" };
return messages[s]`.  The index expression `messages[s]` panics at run time
when `s` is out of range, which the embedding renders as `none`; a normal
return is `some label`. -/
def pamResultString (s : PamResult) : Option String :=
  if s < 0 ∨ (messages.length : Int) < s then some "unknown AuthenResult"
  else messages.get? s.toNat

/-- The process-wide relay guarded by `tokenLock`: the mutex together with
the two global strings `tokenToCheck` and `tokenToSet`. -/
structure Relay where
  locked : Bool
  tokenToCheck : String
  tokenToSet : String
deriving Repr, DecidableEq

/-- The initial global state: lock free, both slot fields empty. -/
def relayInit : Relay := ⟨false, "", ""⟩

/-- Observable events of one operation, used to state lock/slot/session
discipline.  `slotInstall c t` is the assignment `tokenToCheck = c;
tokenToSet = t` at the top of an operation, `slotClear` the deferred wipe,
`sessionStart`/`sessionEnd` the `pam_start`/`pam_end` calls, and the
`native*` events the `pam_authenticate`/`pam_acct_mgmt`/`pam_chauthtok`
calls. -/
inductive Event where
  | lockAcquire : Event
  | lockRelease : Event
  | slotInstall : String → String → Event
  | slotClear : Event
  | sessionStart : Event
  | sessionEnd : Event
  | nativeAuth : Event
  | nativeAcct : Event
  | nativeChangeTok : Event
deriving Repr, DecidableEq

/-- A trace step: an event together with the relay state just after it. -/
abbrev Step := Event × Relay

/-- `passphraseInput` (pamuser.go): returns the current `tokenToCheck` and
rotates the slot, `tokenToCheck = tokenToSet`. -/
def passphraseInput (r : Relay) : String × Relay :=
  (r.tokenToCheck, { r with tokenToCheck := r.tokenToSet })

/-- The native stack invoking `passphraseInput` `k` times during one
native call (state effect only; the returned strings go to PAM). -/
def runPrompts : Nat → Relay → Relay
  | 0, r => r
  | k + 1, r => runPrompts k (passphraseInput r).2

/-- Outcome class of `transaction.authenticate` (pam.go): the native
status is `PAM_AUTH_ERR`, `PAM_SUCCESS`, or some other failing status
carrying a `pam_strerror` message. -/
inductive NativeAuthRes where
  | authErr : NativeAuthRes
  | success : NativeAuthRes
  | failure : String → NativeAuthRes
deriving Repr, DecidableEq

/-- `func (t *transaction) authenticate(quiet bool) (bool, error)`:
`PAM_AUTH_ERR ↦ (false, nil)`; otherwise `(true, t.err())`, which is
`nil` exactly on `PAM_SUCCESS`. -/
def transactionAuthenticate : NativeAuthRes → Bool × Option String
  | .authErr => (false, none)
  | .success => (true, none)
  | .failure e => (true, some e)

/-- Outcome class of `transaction.changeTok` (pam.go): `PAM_SUCCESS`,
`PAM_AUTHTOK_ERR`, or some other failing status with its message. -/
inductive NativeChtokRes where
  | success : NativeChtokRes
  | authtokErr : NativeChtokRes
  | failure : String → NativeChtokRes
deriving Repr, DecidableEq

/-- `func (t *transaction) changeTok(quiet bool) (int, error)`:
`PAM_SUCCESS ↦ (0, nil)`, `PAM_AUTHTOK_ERR ↦ (20, nil)`, anything else
`(-1, t.err())`. -/
def transactionChangeTok : NativeChtokRes → Int × Option String
  | .success => (0, none)
  | .authtokErr => (20, none)
  | .failure e => (-1, some e)

/-- Go `error` values produced by this package: a `PamResult` used as an
error (its `Error()` method), the sentinel `errUnknownFlag`, or an error
from the native layer (from `start` or `handle.err`). -/
inductive GoError where
  | pamFlags : PamResult → GoError
  | unknownFlag : GoError
  | native : String → GoError
deriving Repr, DecidableEq

/-- Native behaviour of one `getUserAccountFlags` call: whether
`pam_start` fails (with a message), and the raw `pam_acct_mgmt` status
when it does not. -/
structure AcctEnv where
  startErr : Option String
  acctStatus : Int
deriving Repr, DecidableEq

/-- `getUserAccountFlags` (pamuser.go).  If `start` fails it returns
`(PamSystemERR, err)` — note `transaction.End()` is not deferred yet on
that path.  Otherwise `accountManagement` never returns an error and the
raw status is returned as `(PamResult(flags), nil)`.  The relay is never
touched, so steps carry the ambient relay state `r`. -/
def getUserAccountFlags (env : AcctEnv) (r : Relay) :
    (PamResult × Option GoError) × List Step :=
  match env.startErr with
  | some e => ((PamSystemERR, some (.native e)), [(.sessionStart, r)])
  | none =>
      ((env.acctStatus, none),
        [(.sessionStart, r), (.nativeAcct, r), (.sessionEnd, r)])

/-- Native behaviour of one `isUserLoginToken` call. -/
structure LoginEnv where
  startErr : Option String
  authRes : NativeAuthRes
  authPrompts : Nat
deriving Repr, DecidableEq

/-- `isUserLoginToken` (pamuser.go).  Locks `tokenLock`, installs
`(password, "")` into the slot, defers the wipe-and-unlock, runs `start`
(on failure: only the deferred wipe runs — `End` was not yet deferred),
then `transaction.authenticate`; the native call drives
`passphraseInput` `env.authPrompts` times.  Error ↦ `PamSystemERR`,
authenticated ↦ `PamSuccess`, else `PamAuthERR`. -/
def isUserLoginToken (_username password : String) (_quiet : Bool)
    (env : LoginEnv) (r0 : Relay) :
    (PamResult × Option GoError) × List Step × Relay :=
  let rLock : Relay := { r0 with locked := true }
  let rInst : Relay := { rLock with tokenToCheck := password, tokenToSet := "" }
  let pre : List Step := [(.lockAcquire, rLock), (.slotInstall password "", rInst)]
  match env.startErr with
  | some e =>
      let r1 : Relay := { rInst with tokenToCheck := "", tokenToSet := "" }
      let r2 : Relay := { r1 with locked := false }
      ((PamSystemERR, some (.native e)),
        pre ++ [(.sessionStart, rInst), (.slotClear, r1), (.lockRelease, r2)], r2)
  | none =>
      let rAuth := runPrompts env.authPrompts rInst
      let res : PamResult × Option GoError :=
        match transactionAuthenticate env.authRes with
        | (_, some e) => (PamSystemERR, some (.native e))
        | (true, none) => (PamSuccess, none)
        | (false, none) => (PamAuthERR, none)
      let r1 : Relay := { rAuth with tokenToCheck := "", tokenToSet := "" }
      let r2 : Relay := { r1 with locked := false }
      (res,
        pre ++ [(.sessionStart, rInst), (.nativeAuth, rAuth), (.sessionEnd, rAuth),
          (.slotClear, r1), (.lockRelease, r2)], r2)

/-- Native behaviour of one `changeToken` call. -/
structure ChangeTokEnv where
  startErr : Option String
  authRes : NativeAuthRes
  authPrompts : Nat
  chtokRes : NativeChtokRes
  chtokPrompts : Nat
deriving Repr, DecidableEq

/-- `changeToken` (pamuser.go).  Locks, installs `(oldpassword,
newpassword)`, defers the wipe-and-unlock, runs `start` (failure: no
`End`), authenticates the old token first (error ↦ `PamSystemERR`, not
authenticated ↦ `PamAuthERR`), then re-assigns `tokenToSet =
newpassword` and calls `transaction.changeTok`, returning its status and
error unchanged. -/
def changeToken (_username oldpassword newpassword : String) (_quiet : Bool)
    (env : ChangeTokEnv) (r0 : Relay) :
    (PamResult × Option GoError) × List Step × Relay :=
  let rLock : Relay := { r0 with locked := true }
  let rInst : Relay :=
    { rLock with tokenToCheck := oldpassword, tokenToSet := newpassword }
  let pre : List Step :=
    [(.lockAcquire, rLock), (.slotInstall oldpassword newpassword, rInst)]
  match env.startErr with
  | some e =>
      let r1 : Relay := { rInst with tokenToCheck := "", tokenToSet := "" }
      let r2 : Relay := { r1 with locked := false }
      ((PamSystemERR, some (.native e)),
        pre ++ [(.sessionStart, rInst), (.slotClear, r1), (.lockRelease, r2)], r2)
  | none =>
      let rAuth := runPrompts env.authPrompts rInst
      match transactionAuthenticate env.authRes with
      | (_, some e) =>
          let r1 : Relay := { rAuth with tokenToCheck := "", tokenToSet := "" }
          let r2 : Relay := { r1 with locked := false }
          ((PamSystemERR, some (.native e)),
            pre ++ [(.sessionStart, rInst), (.nativeAuth, rAuth),
              (.sessionEnd, rAuth), (.slotClear, r1), (.lockRelease, r2)], r2)
      | (false, none) =>
          let r1 : Relay := { rAuth with tokenToCheck := "", tokenToSet := "" }
          let r2 : Relay := { r1 with locked := false }
          ((PamAuthERR, none),
            pre ++ [(.sessionStart, rInst), (.nativeAuth, rAuth),
              (.sessionEnd, rAuth), (.slotClear, r1), (.lockRelease, r2)], r2)
      | (true, none) =>
          let rSet : Relay := { rAuth with tokenToSet := newpassword }
          let rCh := runPrompts env.chtokPrompts rSet
          let ch := transactionChangeTok env.chtokRes
          let r1 : Relay := { rCh with tokenToCheck := "", tokenToSet := "" }
          let r2 : Relay := { r1 with locked := false }
          ((ch.1, ch.2.map .native),
            pre ++ [(.sessionStart, rInst), (.nativeAuth, rAuth),
              (.nativeChangeTok, rCh), (.sessionEnd, rCh),
              (.slotClear, r1), (.lockRelease, r2)], r2)

/-- Native behaviour of one `Authenticate` call: pre-check account query,
inner `isUserLoginToken`, post-check account query. -/
structure AuthEnv where
  pre : AcctEnv
  login : LoginEnv
  post : AcctEnv
deriving Repr, DecidableEq

/-- `Authenticate` (pamuser.go).  Pre-check via `getUserAccountFlags`
(error discarded); flags in {`PamSuccess`, `PamNewAuthTokReqd`,
`PamAuthTokExpired`} proceed, {`PamAuthInfoUnavail`, `PamUserUnknown`,
`PamAcctExpired`} return `(PamAuthERR, Flags)`, anything else
`(PamSystemERR, errUnknownFlag)`.  Then `isUserLoginToken`; an error
↦ `(PamSystemERR, err)`; a non-success result `a` ↦ `(PamAuthERR, a)`.
Then the post-check: flags in {`PamSuccess`, `PamNewAuthTokReqd`,
`PamAcctExpired`} are returned with a nil error, anything else is
`(PamSystemERR, errUnknownFlag)`. -/
def Authenticate (name password : String) (env : AuthEnv) (r0 : Relay) :
    (PamResult × Option GoError) × List Step × Relay :=
  let preCall := getUserAccountFlags env.pre r0
  let flags := preCall.1.1
  if flags = PamSuccess ∨ flags = PamNewAuthTokReqd ∨ flags = PamAuthTokExpired then
    let login := isUserLoginToken name password false env.login r0
    let steps1 := preCall.2 ++ login.2.1
    let r1 := login.2.2
    match login.1.2 with
    | some e => ((PamSystemERR, some e), steps1, r1)
    | none =>
        if login.1.1 ≠ PamSuccess then
          ((PamAuthERR, some (.pamFlags login.1.1)), steps1, r1)
        else
          let postCall := getUserAccountFlags env.post r1
          let pf := postCall.1.1
          let steps2 := steps1 ++ postCall.2
          if pf = PamSuccess ∨ pf = PamNewAuthTokReqd ∨ pf = PamAcctExpired then
            ((pf, none), steps2, r1)
          else
            ((PamSystemERR, some .unknownFlag), steps2, r1)
  else if flags = PamAuthInfoUnavail ∨ flags = PamUserUnknown ∨ flags = PamAcctExpired then
    ((PamAuthERR, some (.pamFlags flags)), preCall.2, r0)
  else
    ((PamSystemERR, some .unknownFlag), preCall.2, r0)

/-- Native behaviour of one `ChangePassword` call. -/
structure ChangePwEnv where
  pre : AcctEnv
  op : ChangeTokEnv
deriving Repr, DecidableEq

/-- `ChangePassword` (pamuser.go).  Pre-check: flags in {`PamSuccess`,
`PamNewAuthTokReqd`, `PamAcctExpired`} proceed, {`PamUserUnknown`,
`PamAuthInfoUnavail`} return `(PamAuthERR, Flags)`, anything else
`(PamSystemERR, errUnknownFlag)`.  Then `changeToken`; an error ↦
`(PamSystemERR, err)`; status `PamSuccess ↦ (PamSuccess, nil)`; status
`PamAuthERR` or `PamAuthTokERR ↦ (status, status)`; anything else
`(PamSystemERR, errUnknownFlag)`. -/
def ChangePassword (name oldPassword newPassword : String)
    (env : ChangePwEnv) (r0 : Relay) :
    (PamResult × Option GoError) × List Step × Relay :=
  let preCall := getUserAccountFlags env.pre r0
  let flags := preCall.1.1
  if flags = PamSuccess ∨ flags = PamNewAuthTokReqd ∨ flags = PamAcctExpired then
    let op := changeToken name oldPassword newPassword false env.op r0
    let steps := preCall.2 ++ op.2.1
    let r1 := op.2.2
    match op.1.2 with
    | some e => ((PamSystemERR, some e), steps, r1)
    | none =>
        if op.1.1 = PamSuccess then ((PamSuccess, none), steps, r1)
        else if op.1.1 = PamAuthERR ∨ op.1.1 = PamAuthTokERR then
          ((op.1.1, some (.pamFlags op.1.1)), steps, r1)
        else ((PamSystemERR, some .unknownFlag), steps, r1)
  else if flags = PamUserUnknown ∨ flags = PamAuthInfoUnavail then
    ((PamAuthERR, some (.pamFlags flags)), preCall.2, r0)
  else
    ((PamSystemERR, some .unknownFlag), preCall.2, r0)

/-- `PAMUser` (the struct version of the package, `pamuser.go` of that
revision): exported `Username`/`Password`, unexported `authenticated` and
`errorReason` (a Go `error`, modelled as `Option String`). -/
structure PAMUser where
  Username : String
  Password : String
  authenticated : Bool
  errorReason : Option String
deriving Repr, DecidableEq

/-- A Go composite literal `PAMUser{Username: n, Password: p}`: the
unexported fields take their zero values. -/
def mkPAMUser (n p : String) : PAMUser :=
  { Username := n, Password := p, authenticated := false, errorReason := none }

/-- `func (user *PAMUser) IsAuthenticated() (bool, error)`:
`if !user.authenticated && user.errorReason == nil { return false,
errors.New("Authenticate not run yet") }; return user.authenticated,
user.errorReason`. -/
def PAMUser.IsAuthenticated (user : PAMUser) : Bool × Option String :=
  if user.authenticated = false ∧ user.errorReason = none then
    (false, some "Authenticate not run yet")
  else (user.authenticated, user.errorReason)

/-- Events that belong to the credential relay (lock and slot traffic) or
are the native authenticate call — exactly what the pre-check
short-circuit must avoid. -/
def isRelayOrAuthEvent : Event → Bool
  | .lockAcquire => true
  | .lockRelease => true
  | .slotInstall _ _ => true
  | .slotClear => true
  | .nativeAuth => true
  | _ => false

theorem runPrompts_locked (k : Nat) (r : Relay) :
    (runPrompts k r).locked = r.locked := by
  induction k generalizing r with
  | zero => rfl
  | succ n ih => simpa [runPrompts, passphraseInput] using ih _

theorem runPrompts_tokenToSet (k : Nat) (r : Relay) :
    (runPrompts k r).tokenToSet = r.tokenToSet := by
  induction k generalizing r with
  | zero => rfl
  | succ n ih => simpa [runPrompts, passphraseInput] using ih _

/-- C4: the claim says `PamResult.String` yields a label for every value,
with a fixed fallback for out-of-range values.  The guard is
`int(s) < 0 || int(s) > len(messages)` — an off-by-one: at `s = 32`
(`= len(messages)`) the guard passes and `messages[s]` panics (modelled
as `none`), while negatives and values above 32 do get the fallback and
in-range values get their label. -/
theorem C4_pamResultString_panics_at_32 :
    pamResultString 32 = none
    ∧ pamResultString 33 = some "unknown AuthenResult"
    ∧ pamResultString (-1) = some "unknown AuthenResult"
    ∧ pamResultString PamIncomplete = some "INCOMPLETE"
    ∧ pamResultString PamSuccess = some "SUCCESS" := by
  refine ⟨?_, ?_, ?_, ?_, ?_⟩ <;> rfl

/-- C10: on a `PAMUser` on which `Authenticate` has not been run (a fresh
composite literal: `authenticated` and `errorReason` at their zero
values), `IsAuthenticated` returns `false` together with the non-nil
error "Authenticate not run yet". -/
theorem C10_isAuthenticated_before_authenticate (n p : String) :
    (mkPAMUser n p).IsAuthenticated = (false, some "Authenticate not run yet")
    ∧ (mkPAMUser n p).IsAuthenticated.2 ≠ none := by
  constructor <;> simp [mkPAMUser, PAMUser.IsAuthenticated]

/-- C3: one invocation of `passphraseInput` returns the current
`tokenToCheck` and leaves `tokenToSet` in its place; on the slot as
installed by a plain authentication (`tokenToSet = ""`), the first call
returns the password and a second call returns the empty string, so the
first password cannot be replayed. -/
theorem C3_passphraseInput_rotates (r : Relay) (pw : String) :
    (passphraseInput r).1 = r.tokenToCheck
    ∧ (passphraseInput r).2.tokenToCheck = r.tokenToSet
    ∧ (passphraseInput ⟨true, pw, ""⟩).1 = pw
    ∧ (passphraseInput (passphraseInput ⟨true, pw, ""⟩).2).1 = "" :=
  ⟨rfl, rfl, rfl, rfl⟩

/-- C1: when the pre-check flag is outside {`PamSuccess`,
`PamNewAuthTokReqd`, `PamAuthTokExpired`}, `Authenticate` returns the
mapped rejection (`PamAuthERR` carrying the flag for the known blocked
flags, `PamSystemERR` with `errUnknownFlag` otherwise), the relay state
is untouched, and the trace holds no lock, slot, or native-authenticate
event. -/
theorem C1_authenticate_precheck_short_circuit
    (name password : String) (env : AuthEnv) (r0 : Relay)
    (h : ¬ ((getUserAccountFlags env.pre r0).1.1 = PamSuccess
      ∨ (getUserAccountFlags env.pre r0).1.1 = PamNewAuthTokReqd
      ∨ (getUserAccountFlags env.pre r0).1.1 = PamAuthTokExpired)) :
    (Authenticate name password env r0).1 =
      (if (getUserAccountFlags env.pre r0).1.1 = PamAuthInfoUnavail
          ∨ (getUserAccountFlags env.pre r0).1.1 = PamUserUnknown
          ∨ (getUserAccountFlags env.pre r0).1.1 = PamAcctExpired
        then (PamAuthERR, some (.pamFlags (getUserAccountFlags env.pre r0).1.1))
        else (PamSystemERR, some .unknownFlag))
    ∧ (Authenticate name password env r0).2.2 = r0
    ∧ ((Authenticate name password env r0).2.1.map Prod.fst).all
        (fun e => !isRelayOrAuthEvent e) = true := by
  obtain ⟨⟨pse, pst⟩, lenv, penv⟩ := env
  cases pse <;>
    · simp only [Authenticate, getUserAccountFlags] at h ⊢
      rw [if_neg h]
      split <;> simp [isRelayOrAuthEvent]

theorem C1_authenticate_precheck_short_circuit_witness :
    (¬ ((getUserAccountFlags ⟨none, 10⟩ relayInit).1.1 = PamSuccess
      ∨ (getUserAccountFlags ⟨none, 10⟩ relayInit).1.1 = PamNewAuthTokReqd
      ∨ (getUserAccountFlags ⟨none, 10⟩ relayInit).1.1 = PamAuthTokExpired))
    ∧ ((Authenticate "u" "p" ⟨⟨none, 10⟩, ⟨none, .success, 1⟩, ⟨none, 0⟩⟩ relayInit).1 =
        (if (getUserAccountFlags (⟨⟨none, 10⟩, ⟨none, .success, 1⟩, ⟨none, 0⟩⟩ : AuthEnv).pre relayInit).1.1 = PamAuthInfoUnavail
            ∨ (getUserAccountFlags (⟨⟨none, 10⟩, ⟨none, .success, 1⟩, ⟨none, 0⟩⟩ : AuthEnv).pre relayInit).1.1 = PamUserUnknown
            ∨ (getUserAccountFlags (⟨⟨none, 10⟩, ⟨none, .success, 1⟩, ⟨none, 0⟩⟩ : AuthEnv).pre relayInit).1.1 = PamAcctExpired
          then (PamAuthERR, some (.pamFlags (getUserAccountFlags (⟨⟨none, 10⟩, ⟨none, .success, 1⟩, ⟨none, 0⟩⟩ : AuthEnv).pre relayInit).1.1))
          else (PamSystemERR, some .unknownFlag))
      ∧ (Authenticate "u" "p" ⟨⟨none, 10⟩, ⟨none, .success, 1⟩, ⟨none, 0⟩⟩ relayInit).2.2 = relayInit
      ∧ ((Authenticate "u" "p" ⟨⟨none, 10⟩, ⟨none, .success, 1⟩, ⟨none, 0⟩⟩ relayInit).2.1.map Prod.fst).all
          (fun e => !isRelayOrAuthEvent e) = true) :=
  ⟨by decide,
    C1_authenticate_precheck_short_circuit "u" "p"
      ⟨⟨none, 10⟩, ⟨none, .success, 1⟩, ⟨none, 0⟩⟩ relayInit (by decide)⟩

/-- C6 as stated is false: with the pre-check reporting `PamUserUnknown`,
`Authenticate` returns the result code `PamAuthERR`, not `PamUserUnknown`
— the reported flag appears only in the error position. -/
theorem C6_counterexample :
    (Authenticate "u" "p" ⟨⟨none, PamUserUnknown⟩, ⟨none, .success, 1⟩, ⟨none, 0⟩⟩ relayInit).1.1
      = PamAuthERR
    ∧ (Authenticate "u" "p" ⟨⟨none, PamUserUnknown⟩, ⟨none, .success, 1⟩, ⟨none, 0⟩⟩ relayInit).1.1
      ≠ PamUserUnknown := by
  constructor <;> decide

/-- C6 amended: when the pre-check flag is outside the allowed set,
`Authenticate` returns `(PamAuthERR, Flags)` for the recognized blocked
flags (`PamAuthInfoUnavail`, `PamUserUnknown`, `PamAcctExpired`) — the
distinguishing code travels in the error position — and `(PamSystemERR,
errUnknownFlag)` for an unrecognized flag. -/
theorem C6_precheck_rejection_mapping
    (name password : String) (env : AuthEnv) (r0 : Relay)
    (h : ¬ ((getUserAccountFlags env.pre r0).1.1 = PamSuccess
      ∨ (getUserAccountFlags env.pre r0).1.1 = PamNewAuthTokReqd
      ∨ (getUserAccountFlags env.pre r0).1.1 = PamAuthTokExpired)) :
    (Authenticate name password env r0).1 =
      if (getUserAccountFlags env.pre r0).1.1 = PamAuthInfoUnavail
          ∨ (getUserAccountFlags env.pre r0).1.1 = PamUserUnknown
          ∨ (getUserAccountFlags env.pre r0).1.1 = PamAcctExpired
        then (PamAuthERR, some (.pamFlags (getUserAccountFlags env.pre r0).1.1))
        else (PamSystemERR, some .unknownFlag) := by
  obtain ⟨⟨pse, pst⟩, lenv, penv⟩ := env
  cases pse <;>
    · simp only [Authenticate, getUserAccountFlags] at h ⊢
      rw [if_neg h]
      split <;> rfl

theorem C6_precheck_rejection_mapping_witness :
    (¬ ((getUserAccountFlags ⟨none, 13⟩ relayInit).1.1 = PamSuccess
      ∨ (getUserAccountFlags ⟨none, 13⟩ relayInit).1.1 = PamNewAuthTokReqd
      ∨ (getUserAccountFlags ⟨none, 13⟩ relayInit).1.1 = PamAuthTokExpired))
    ∧ (Authenticate "u" "p" ⟨⟨none, 13⟩, ⟨none, .success, 1⟩, ⟨none, 0⟩⟩ relayInit).1 =
        if (getUserAccountFlags (⟨⟨none, 13⟩, ⟨none, .success, 1⟩, ⟨none, 0⟩⟩ : AuthEnv).pre relayInit).1.1 = PamAuthInfoUnavail
            ∨ (getUserAccountFlags (⟨⟨none, 13⟩, ⟨none, .success, 1⟩, ⟨none, 0⟩⟩ : AuthEnv).pre relayInit).1.1 = PamUserUnknown
            ∨ (getUserAccountFlags (⟨⟨none, 13⟩, ⟨none, .success, 1⟩, ⟨none, 0⟩⟩ : AuthEnv).pre relayInit).1.1 = PamAcctExpired
          then (PamAuthERR, some (.pamFlags (getUserAccountFlags (⟨⟨none, 13⟩, ⟨none, .success, 1⟩, ⟨none, 0⟩⟩ : AuthEnv).pre relayInit).1.1))
          else (PamSystemERR, some .unknownFlag) :=
  ⟨by decide,
    C6_precheck_rejection_mapping "u" "p"
      ⟨⟨none, 13⟩, ⟨none, .success, 1⟩, ⟨none, 0⟩⟩ relayInit (by decide)⟩

/-- C5: when the pre-check passes and the native authenticate step
rejects the old password, `ChangePassword` returns `PamAuthERR`
(`InvalidOldCredential`), the native credential-update call
(`transaction.changeTok`) is never reached, and this result is distinct
from `PamAuthTokERR`, the code for a policy-rejected new password. -/
theorem C5_wrong_old_password_no_changetok
    (name old new : String) (env : ChangePwEnv) (r0 : Relay)
    (hps : env.pre.startErr = none)
    (hpf : env.pre.acctStatus = PamSuccess ∨ env.pre.acctStatus = PamNewAuthTokReqd
      ∨ env.pre.acctStatus = PamAcctExpired)
    (hos : env.op.startErr = none)
    (har : env.op.authRes = .authErr) :
    (ChangePassword name old new env r0).1 = (PamAuthERR, some (.pamFlags PamAuthERR))
    ∧ Event.nativeChangeTok ∉ (ChangePassword name old new env r0).2.1.map Prod.fst
    ∧ PamAuthERR ≠ PamAuthTokERR := by
  obtain ⟨⟨pse, pst⟩, ⟨ose, oar, ok1, ocr, ok2⟩⟩ := env
  simp only at hps hpf hos har
  subst hps hos har
  refine ⟨?_, ?_, by decide⟩ <;>
    · simp only [ChangePassword, changeToken, getUserAccountFlags,
        transactionAuthenticate]
      rw [if_pos hpf]
      simp [PamSuccess, PamAuthERR, PamAuthTokERR]

theorem C5_wrong_old_password_no_changetok_witness :
    ((⟨⟨none, 0⟩, ⟨none, .authErr, 1, .success, 2⟩⟩ : ChangePwEnv).pre.startErr = none)
    ∧ ((⟨⟨none, 0⟩, ⟨none, .authErr, 1, .success, 2⟩⟩ : ChangePwEnv).pre.acctStatus = PamSuccess
      ∨ (⟨⟨none, 0⟩, ⟨none, .authErr, 1, .success, 2⟩⟩ : ChangePwEnv).pre.acctStatus = PamNewAuthTokReqd
      ∨ (⟨⟨none, 0⟩, ⟨none, .authErr, 1, .success, 2⟩⟩ : ChangePwEnv).pre.acctStatus = PamAcctExpired)
    ∧ ((ChangePassword "u" "old" "new" ⟨⟨none, 0⟩, ⟨none, .authErr, 1, .success, 2⟩⟩ relayInit).1
        = (PamAuthERR, some (.pamFlags PamAuthERR))
      ∧ Event.nativeChangeTok ∉
          (ChangePassword "u" "old" "new" ⟨⟨none, 0⟩, ⟨none, .authErr, 1, .success, 2⟩⟩ relayInit).2.1.map Prod.fst
      ∧ PamAuthERR ≠ PamAuthTokERR) :=
  ⟨by decide, by decide,
    C5_wrong_old_password_no_changetok "u" "old" "new"
      ⟨⟨none, 0⟩, ⟨none, .authErr, 1, .success, 2⟩⟩ relayInit
      (by decide) (by decide) (by decide) (by decide)⟩

/-- C2: starting from the clean global state, both `isUserLoginToken` and
`changeToken` leave the relay exactly as they found it (lock free, both
fields empty) on every exit path, and in every intermediate state of the
trace a non-empty slot only occurs while the lock is held. -/
theorem C2_relay_cleared_on_every_exit (u p old new : String) (q1 q2 : Bool)
    (lenv : LoginEnv) (cenv : ChangeTokEnv) :
    (isUserLoginToken u p q1 lenv relayInit).2.2 = relayInit
    ∧ ((isUserLoginToken u p q1 lenv relayInit).2.1.all
        (fun s => s.2.locked || (s.2.tokenToCheck == "" && s.2.tokenToSet == ""))) = true
    ∧ (changeToken u old new q2 cenv relayInit).2.2 = relayInit
    ∧ ((changeToken u old new q2 cenv relayInit).2.1.all
        (fun s => s.2.locked || (s.2.tokenToCheck == "" && s.2.tokenToSet == ""))) = true := by
  obtain ⟨se1, ar1, k1⟩ := lenv
  obtain ⟨se2, ar2, k2, cr2, kc2⟩ := cenv
  refine ⟨?_, ?_, ?_, ?_⟩
  · cases se1 <;> cases ar1 <;>
      simp [isUserLoginToken, transactionAuthenticate, relayInit]
  · cases se1 <;> cases ar1 <;>
      simp [isUserLoginToken, transactionAuthenticate, runPrompts_locked]
  · cases se2 <;> cases ar2 <;> cases cr2 <;>
      simp [changeToken, transactionAuthenticate, transactionChangeTok, relayInit]
  · cases se2 <;> cases ar2 <;> cases cr2 <;>
      simp [changeToken, transactionAuthenticate, transactionChangeTok, runPrompts_locked]

/-- C7 as stated is false: when `pam_start` fails, `defer
transaction.End()` has not yet been registered, so the operation returns
with a session-start attempt in its trace but no session close. -/
theorem C7_counterexample :
    Event.sessionStart ∈
      ((isUserLoginToken "u" "p" false ⟨some "boom", .success, 0⟩ relayInit).2.1.map Prod.fst)
    ∧ Event.sessionEnd ∉
      ((isUserLoginToken "u" "p" false ⟨some "boom", .success, 0⟩ relayInit).2.1.map Prod.fst) := by
  constructor <;> decide

/-- C7 amended: whenever the native session open succeeds, each of
`isUserLoginToken`, `changeToken` and `getUserAccountFlags` closes the
session exactly once before returning, on success and failure outcomes
alike (when open fails, no close occurs, but the relay operations still
clear the slot and release the lock). -/
theorem C7_session_closed_once_when_opened (u p old new : String) (q1 q2 : Bool)
    (lenv : LoginEnv) (cenv : ChangeTokEnv) (aenv : AcctEnv) (r0 : Relay)
    (h1 : lenv.startErr = none) (h2 : cenv.startErr = none) (h3 : aenv.startErr = none) :
    ((isUserLoginToken u p q1 lenv r0).2.1.map Prod.fst).count Event.sessionEnd = 1
    ∧ ((changeToken u old new q2 cenv r0).2.1.map Prod.fst).count Event.sessionEnd = 1
    ∧ ((getUserAccountFlags aenv r0).2.map Prod.fst).count Event.sessionEnd = 1 := by
  obtain ⟨se1, ar1, k1⟩ := lenv
  obtain ⟨se2, ar2, k2, cr2, kc2⟩ := cenv
  obtain ⟨se3, st3⟩ := aenv
  simp only at h1 h2 h3
  subst h1 h2 h3
  refine ⟨?_, ?_, ?_⟩
  · cases ar1 <;>
      simp [isUserLoginToken, transactionAuthenticate, List.count_cons]
  · cases ar2 <;> cases cr2 <;>
      simp [changeToken, transactionAuthenticate, transactionChangeTok, List.count_cons]
  · simp [getUserAccountFlags, List.count_cons]

theorem C7_session_closed_once_when_opened_witness :
    ((⟨none, .authErr, 1⟩ : LoginEnv).startErr = none)
    ∧ ((⟨none, .success, 1, .authtokErr, 2⟩ : ChangeTokEnv).startErr = none)
    ∧ ((⟨none, 0⟩ : AcctEnv).startErr = none)
    ∧ (((isUserLoginToken "u" "p" true ⟨none, .authErr, 1⟩ relayInit).2.1.map Prod.fst).count
          Event.sessionEnd = 1
      ∧ ((changeToken "u" "old" "new" true ⟨none, .success, 1, .authtokErr, 2⟩ relayInit).2.1.map
          Prod.fst).count Event.sessionEnd = 1
      ∧ ((getUserAccountFlags ⟨none, 0⟩ relayInit).2.map Prod.fst).count Event.sessionEnd = 1) :=
  ⟨by decide, by decide, by decide,
    C7_session_closed_once_when_opened "u" "p" "old" "new" true true
      ⟨none, .authErr, 1⟩ ⟨none, .success, 1, .authtokErr, 2⟩ ⟨none, 0⟩ relayInit
      (by decide) (by decide) (by decide)⟩

/-- C8 as stated is false: with the pre-check reporting `PamAcctExpired`,
`Authenticate` rejects at the pre-check (the relay lock is never taken),
while `ChangePassword` proceeds past its pre-check into the credential
relay — the two allowed sets are not identical. -/
theorem C8_counterexample :
    Event.lockAcquire ∉
      ((Authenticate "u" "p" ⟨⟨none, PamAcctExpired⟩, ⟨none, .success, 1⟩, ⟨none, 0⟩⟩
        relayInit).2.1.map Prod.fst)
    ∧ Event.lockAcquire ∈
      ((ChangePassword "u" "o" "n" ⟨⟨none, PamAcctExpired⟩, ⟨none, .success, 1, .success, 2⟩⟩
        relayInit).2.1.map Prod.fst) := by
  constructor <;> decide

theorem lockAcquire_mem_login_trace (u p : String) (q : Bool)
    (env : LoginEnv) (r : Relay) :
    Event.lockAcquire ∈ (isUserLoginToken u p q env r).2.1.map Prod.fst := by
  obtain ⟨se, ar, k⟩ := env
  cases se <;> cases ar <;> simp [isUserLoginToken, transactionAuthenticate]

theorem lockAcquire_mem_changetok_trace (u old new : String) (q : Bool)
    (env : ChangeTokEnv) (r : Relay) :
    Event.lockAcquire ∈ (changeToken u old new q env r).2.1.map Prod.fst := by
  obtain ⟨se, ar, k, cr, kc⟩ := env
  cases se <;> cases ar <;> cases cr <;>
    simp [changeToken, transactionAuthenticate, transactionChangeTok]

/-- C8 amended: the two pre-checks agree on `PamSuccess` and
`PamNewAuthTokReqd` but differ on the expiry flags: `Authenticate`
proceeds past its pre-check exactly on {`PamSuccess`, `PamNewAuthTokReqd`,
`PamAuthTokExpired`}, while `ChangePassword` proceeds exactly on
{`PamSuccess`, `PamNewAuthTokReqd`, `PamAcctExpired`}. -/
theorem C8_precheck_gating_characterized (name pw old new : String) (flags : Int)
    (lenv : LoginEnv) (cenv : ChangeTokEnv) (penv : AcctEnv) (r0 : Relay) :
    (Event.lockAcquire ∈
        ((Authenticate name pw ⟨⟨none, flags⟩, lenv, penv⟩ r0).2.1.map Prod.fst)
      ↔ (flags = PamSuccess ∨ flags = PamNewAuthTokReqd ∨ flags = PamAuthTokExpired))
    ∧ (Event.lockAcquire ∈
        ((ChangePassword name old new ⟨⟨none, flags⟩, cenv⟩ r0).2.1.map Prod.fst)
      ↔ (flags = PamSuccess ∨ flags = PamNewAuthTokReqd ∨ flags = PamAcctExpired)) := by
  constructor
  · by_cases hf : flags = PamSuccess ∨ flags = PamNewAuthTokReqd ∨ flags = PamAuthTokExpired
    · refine iff_of_true ?_ hf
      have hl := lockAcquire_mem_login_trace name pw false lenv r0
      simp only [Authenticate, getUserAccountFlags]
      rw [if_pos hf]
      split
      · simp [List.mem_append, hl]
      · split
        · simp [List.mem_append, hl]
        · split <;> simp [List.mem_append, hl]
    · refine iff_of_false ?_ hf
      simp only [Authenticate, getUserAccountFlags]
      rw [if_neg hf]
      split <;> simp
  · by_cases hf : flags = PamSuccess ∨ flags = PamNewAuthTokReqd ∨ flags = PamAcctExpired
    · refine iff_of_true ?_ hf
      have hl := lockAcquire_mem_changetok_trace name old new false cenv r0
      simp only [ChangePassword, getUserAccountFlags]
      rw [if_pos hf]
      split
      · simp [List.mem_append, hl]
      · split
        · simp [List.mem_append, hl]
        · split <;> simp [List.mem_append, hl]
    · refine iff_of_false ?_ hf
      simp only [ChangePassword, getUserAccountFlags]
      rw [if_neg hf]
      split <;> simp

/-- C9: after a successful native password check, a post-check flag of
`PamNewAuthTokReqd` or `PamAcctExpired` is returned as the result of
`Authenticate` together with a nil error, and that flag is not
`PamSuccess` — so a caller testing only the error treats the flagged
account as authenticated. -/
theorem C9_flagged_result_with_nil_error (name pw : String) (env : AuthEnv) (r0 : Relay)
    (h1 : env.pre.startErr = none) (h2 : env.pre.acctStatus = PamSuccess)
    (h3 : env.login.startErr = none) (h4 : env.login.authRes = .success)
    (h5 : env.post.startErr = none)
    (h6 : env.post.acctStatus = PamNewAuthTokReqd ∨ env.post.acctStatus = PamAcctExpired) :
    (Authenticate name pw env r0).1 = (env.post.acctStatus, none)
    ∧ (Authenticate name pw env r0).1.2 = none
    ∧ env.post.acctStatus ≠ PamSuccess := by
  obtain ⟨⟨pse, pst⟩, ⟨lse, lar, lk⟩, ⟨qse, qst⟩⟩ := env
  simp only at h1 h2 h3 h4 h5 h6
  subst h1 h2 h3 h4 h5
  rcases h6 with h6 | h6 <;> subst h6 <;>
    exact ⟨by simp [Authenticate, isUserLoginToken, getUserAccountFlags,
        transactionAuthenticate, PamSuccess, PamNewAuthTokReqd, PamAcctExpired,
        PamAuthTokExpired, PamAuthInfoUnavail, PamUserUnknown],
      by simp [Authenticate, isUserLoginToken, getUserAccountFlags,
        transactionAuthenticate, PamSuccess, PamNewAuthTokReqd, PamAcctExpired,
        PamAuthTokExpired, PamAuthInfoUnavail, PamUserUnknown],
      by simp [PamSuccess, PamNewAuthTokReqd, PamAcctExpired]⟩

theorem C9_flagged_result_with_nil_error_witness :
    ((⟨⟨none, 0⟩, ⟨none, .success, 1⟩, ⟨none, 12⟩⟩ : AuthEnv).pre.startErr = none)
    ∧ ((⟨⟨none, 0⟩, ⟨none, .success, 1⟩, ⟨none, 12⟩⟩ : AuthEnv).pre.acctStatus = PamSuccess)
    ∧ ((⟨⟨none, 0⟩, ⟨none, .success, 1⟩, ⟨none, 12⟩⟩ : AuthEnv).login.startErr = none)
    ∧ ((⟨⟨none, 0⟩, ⟨none, .success, 1⟩, ⟨none, 12⟩⟩ : AuthEnv).login.authRes = .success)
    ∧ ((⟨⟨none, 0⟩, ⟨none, .success, 1⟩, ⟨none, 12⟩⟩ : AuthEnv).post.startErr = none)
    ∧ ((Authenticate "u" "p" ⟨⟨none, 0⟩, ⟨none, .success, 1⟩, ⟨none, 12⟩⟩ relayInit).1 =
        ((⟨⟨none, 0⟩, ⟨none, .success, 1⟩, ⟨none, 12⟩⟩ : AuthEnv).post.acctStatus, none)
      ∧ (Authenticate "u" "p" ⟨⟨none, 0⟩, ⟨none, .success, 1⟩, ⟨none, 12⟩⟩ relayInit).1.2 = none
      ∧ (⟨⟨none, 0⟩, ⟨none, .success, 1⟩, ⟨none, 12⟩⟩ : AuthEnv).post.acctStatus ≠ PamSuccess) :=
  ⟨by decide, by decide, by decide, by decide, by decide,
    C9_flagged_result_with_nil_error "u" "p"
      ⟨⟨none, 0⟩, ⟨none, .success, 1⟩, ⟨none, 12⟩⟩ relayInit
      (by decide) (by decide) (by decide) (by decide) (by decide) (Or.inl (by decide))⟩

end Axiospam
